import Mathlib

/-
Verification of the datagouv-ts resource client (src/Datagouv.ts) against its
natural-language specification.

The client is thin HTTP glue: every operation builds one request, sends it and
reshapes the JSON response.  The embedding below models

  * dynamic JSON/JS values flowing through the promise chains as `JsVal`
    (property access on a missing key yields `undefined`, JS truthiness is
    `JsVal.truthy`, `Array.prototype.join` coercion is `JsVal.joinStr`);
  * the HTTP transport as an explicit environment: each operation receives the
    wire outcome (for `deleteResource`) or a response function from requests to
    response bodies (for the other calls), so an operation is a pure function
    of its arguments and of the remote service's behaviour;
  * a rejected promise as `Except JsError _`; the JS error values that occur
    are plain `Error` objects (carrying only a message), axios errors
    (optionally carrying the HTTP response) and the `TypeError` raised by a
    property access on `undefined`;
  * log output (`console.log`) as an explicit list of emitted lines.

`getMatchingResources` and `deleteResourceDatasetPattern` are described by the
specification but absent from src/; they are modelled from the spec text and
marked as such on their definitions.
-/

/-- A dynamic JS/JSON value as it flows through the promise chains: the
source manipulates untyped axios response bodies (`r: any`). -/
inductive JsVal where
  | undefined : JsVal
  | null : JsVal
  | bool : Bool → JsVal
  | str : String → JsVal
  | obj : List (String × JsVal) → JsVal
deriving Repr

/-- First value bound to key `k`, `undefined` when absent — JS object lookup. -/
def lookupField : List (String × JsVal) → String → JsVal
  | [], _ => .undefined
  | (k', v) :: rest, k => if k' = k then v else lookupField rest k

/-- JS property access `v[k]`: field lookup on objects, `undefined` on any
non-object primitive (a string or boolean has no such own property). -/
def JsVal.get (v : JsVal) (k : String) : JsVal :=
  match v with
  | .obj fs => lookupField fs k
  | _ => .undefined

/-- Whether the object `v` has an own property named `k`. -/
def JsVal.hasKey (v : JsVal) (k : String) : Bool :=
  match v with
  | .obj fs => fs.any (fun p => p.1 = k)
  | _ => false

/-- The property names of an object value, in insertion order. -/
def JsVal.keys (v : JsVal) : List String :=
  match v with
  | .obj fs => fs.map (fun p => p.1)
  | _ => []

/-- JS truthiness, as tested by `if (!r.data.success)`. -/
def JsVal.truthy : JsVal → Bool
  | .undefined => false
  | .null => false
  | .bool b => b
  | .str s => s ≠ ""
  | .obj _ => true

/-- The string JS `Array.prototype.join` uses for an element: `null` and
`undefined` become the empty string, others their string coercion. -/
def JsVal.joinStr : JsVal → String
  | .undefined => ""
  | .null => ""
  | .bool b => if b then "true" else "false"
  | .str s => s
  | .obj _ => "[object Object]"

/-- The HTTP error response attached to an axios rejection: the status code
and the `message` field of the parsed error body (read by the delete catch
handler as `r.response.data.message`). -/
structure ErrResponse where
  status : Nat
  message : String
deriving Repr, DecidableEq

/-- A JS error value reaching a `.catch` handler: a plain `new Error(msg)`,
an axios rejection (whose `response` field is present exactly when the server
delivered an HTTP error response), or the `TypeError` thrown by reading a
property of `undefined`. -/
inductive JsError where
  | error : String → JsError
  | axiosError : Option ErrResponse → JsError
  | typeError : JsError
deriving Repr, DecidableEq

/-- Outcome on the wire for a single HTTP exchange: either the server
delivered a response with some status and body, or the request failed at the
transport level and no response exists. -/
inductive WireOutcome where
  | response : Nat → String → WireOutcome
  | networkFailure : WireOutcome
deriving Repr, DecidableEq

/-- The axios layer for the DELETE call: with the default `validateStatus` a
delivered status in [200, 300) resolves (a 204 carries no content, so its
`data` is the empty string), any other delivered status rejects with an axios
error holding the response, and a transport failure rejects with an axios
error holding no response. -/
def axiosDelete (w : WireOutcome) : Except JsError (Nat × String) :=
  match w with
  | .response s body =>
      if 200 ≤ s ∧ s < 300 then
        .ok (s, if s = 204 then "" else body)
      else
        .error (.axiosError (some ⟨s, body⟩))
  | .networkFailure => .error (.axiosError none)

/-- The fulfilled handler of `deleteResource`: `if (r.status != 204) throw new
Error("HTTP code not 204 after deletion"); return r.data`. -/
def deleteThen (r : Nat × String) : Except JsError String :=
  if r.1 ≠ 204 then .error (.error "HTTP code not 204 after deletion")
  else .ok r.2

/-- The catch handler of `deleteResource`.  It evaluates
`JSON.stringify(\x7bstatus: r.response.status, message: r.response.data.message\x7d)`
before logging: when the caught value carries a `response` the line is logged
and a fresh generic `Error("Resource deletion failed")` is thrown; when it
does not (a plain `Error` from the 204 check, or an axios transport error),
`r.response` is `undefined` and reading `.status` from it throws a
`TypeError` before anything is logged. -/
def deleteCatch (resource_id : String) (e : JsError) :
    Except JsError String × List String :=
  match e with
  | .axiosError (some resp) =>
      (.error (.error "Resource deletion failed"),
       ["Resource deletion failed for " ++ resource_id ++ " : \x7b\"status\":"
          ++ toString resp.status ++ ",\"message\":\"" ++ resp.message ++ "\"\x7d"])
  | _ => (.error .typeError, [])

/-- `Datagouv.deleteResource`, as a function of the wire outcome of its DELETE
request: the axios promise, then the 204 check, then the catch handler.
Returns the settled result together with the `console.log` lines emitted. -/
def deleteResource (resource_id : String) (w : WireOutcome) :
    Except JsError String × List String :=
  match axiosDelete w >>= deleteThen with
  | .ok d => (.ok d, [])
  | .error e => deleteCatch resource_id e


/-- The exported TS type `DatagouvResourceCustom`: exactly these eight string
fields, with no auxiliary field. -/
structure DatagouvResourceCustom where
  id : String
  created_at : String
  last_modified : String
  title : String
  latest : String
  url : String
  description : String
  format : String
deriving Repr, DecidableEq

/-- The field names of `DatagouvResourceCustom`, in declaration order. -/
def resourceFieldNames : List String :=
  ["id", "created_at", "last_modified", "title", "latest", "url",
   "description", "format"]

/-- The partial-update body of `updateResource`: some of description, title,
url; an absent optional is an absent JSON key (`JSON.stringify` drops
`undefined` properties). -/
structure UpdatePayload where
  description : Option String
  title : Option String
  url : Option String
deriving Repr, DecidableEq

/-- The PUT request `updateResource` issues. -/
structure UpdateRequest where
  urlPath : String
  method : String
  contentType : String
  apiKey : String
  payload : UpdatePayload
deriving Repr, DecidableEq

/-- The request built by `Datagouv.updateResource`: PUT to
`[api_base_url, "datasets", dataset_id, "resources", resource.id].join("/")`
with the JSON payload and the Content-Type and X-API-KEY headers.  The
resource argument is the dynamic value the caller holds; only its `id` is
read (and coerced by `Array.prototype.join`). -/
def updateResourceReq (resource : JsVal)
    (api_base_url dataset_id datagouv_apiKey : String)
    (payload : UpdatePayload) : UpdateRequest :=
  ⟨String.intercalate "/"
      [api_base_url, "datasets", dataset_id, "resources",
       (resource.get "id").joinStr],
   "put", "application/json", datagouv_apiKey, payload⟩

/-- `Datagouv.updateResource` as a function of the remote service `env`
(mapping the issued PUT request to the response body): it resolves with
`r.data`, the service's response, unmodified. -/
def updateResource (env : UpdateRequest → JsVal) (resource : JsVal)
    (api_base_url dataset_id datagouv_apiKey : String)
    (payload : UpdatePayload) : JsVal :=
  env (updateResourceReq resource api_base_url dataset_id datagouv_apiKey payload)

/-- `Datagouv.updateResourceDescription`: delegates to `updateResource` with
the one-field payload `\x7bdescription\x7d`. -/
def updateResourceDescription (env : UpdateRequest → JsVal) (resource : JsVal)
    (api_base_url dataset_id : String) (description : String)
    (datagouv_apiKey : String) : JsVal :=
  updateResource env resource api_base_url dataset_id datagouv_apiKey
    ⟨some description, none, none⟩

/-- The POST request `createResourceRemote` issues; the payload is the JSON
object literal of the source, kept as its ordered key/value pairs. -/
structure PostRequest where
  urlPath : String
  method : String
  headers : List (String × String)
  payload : List (String × String)
deriving Repr, DecidableEq

/-- The request built by `Datagouv.createResourceRemote`: POST to
`[baseUrl, "datasets", datasetId, "resources"].join("/")` with the fixed-shape
payload (filetype "remote", format "csv", mime "text/csv", type "main"
hardcoded; description, title, url from the arguments) and the Content-Type
and X-API-KEY headers. -/
def createResourceRemoteReq (baseUrl datasetId title description url
    datagouv_apiKey : String) : PostRequest :=
  ⟨String.intercalate "/" [baseUrl, "datasets", datasetId, "resources"],
   "post",
   [("Content-Type", "application/json"), ("X-API-KEY", datagouv_apiKey)],
   [("description", description), ("filetype", "remote"), ("format", "csv"),
    ("mime", "text/csv"), ("title", title), ("type", "main"), ("url", url)]⟩

/-- `Datagouv.createResourceRemote` as a function of the remote service:
resolves with the service's response body `r.data` unmodified. -/
def createResourceRemote (env : PostRequest → JsVal)
    (baseUrl datasetId title description url datagouv_apiKey : String) : JsVal :=
  env (createResourceRemoteReq baseUrl datasetId title description url
        datagouv_apiKey)

/-- JS `String.prototype.split("/")` over the character list: the maximal
(possibly empty) chunks between `/` separators; never the empty array. -/
def jsSplitSlash : List Char → List String
  | [] => [""]
  | c :: cs =>
      let rest := jsSplitSlash cs
      if c = '/' then "" :: rest
      else
        match rest with
        | [] => [String.mk [c]]
        | t :: ts => String.mk (c :: t.data) :: ts

/-- `filePath.split("/").pop()`: the path tail after the last `/`.  A JS
`split` on a non-empty separator never yields an empty array, so `pop` never
returns `undefined`. -/
def jsBasename (filePath : String) : String :=
  (jsSplitSlash filePath.data).getLastD ""


/-- The reshaping step of `createResourceFromFile`: the object literal built
from the raw upload body `r`, its eight modeled fields plus `rest: r`, the
full raw response, in the source's key order. -/
def reshapeUpload (r : JsVal) : JsVal :=
  .obj [("created_at", r.get "created_at"), ("description", r.get "description"),
        ("format", r.get "format"), ("id", r.get "id"),
        ("last_modified", r.get "last_modified"), ("latest", r.get "latest"),
        ("title", r.get "title"), ("url", r.get "url"), ("rest", r)]

/-- `Datagouv.createResourceFromFile` as a function of the upload response
body `uploadData` and of the remote service `env` answering the PUT of step 2.
Mirrors the promise chain: if `!r.data.success` the chain rejects with
`Error("Resource creation failed")` before step 2; otherwise the raw body is
reshaped (adding `rest`) and handed to `updateResource` with the payload
`\x7btitle: filePath.split("/").pop()\x7d`, and the chain resolves with the PUT
response.  The second component lists the PUT requests issued. -/
def createResourceFromFile (filePath datagouvBaseUrl datasetId
    datagouv_apiKey : String) (uploadData : JsVal)
    (env : UpdateRequest → JsVal) :
    Except JsError JsVal × List UpdateRequest :=
  if (uploadData.get "success").truthy = false then
    (.error (.error "Resource creation failed"), [])
  else
    let resource_created := reshapeUpload uploadData
    let payload : UpdatePayload := ⟨none, some (jsBasename filePath), none⟩
    (.ok (updateResource env resource_created datagouvBaseUrl datasetId
            datagouv_apiKey payload),
     [updateResourceReq resource_created datagouvBaseUrl datasetId
        datagouv_apiKey payload])

/-- The resource records the spec-modelled operations traverse: only the id
and the title take part in matching and deletion. -/
structure SpecResource where
  id : String
  title : String
deriving Repr, DecidableEq

/-- Dataset metadata as the spec describes it: it carries the dataset's
resource list in the remote service's order. -/
structure DatasetMetadata where
  resources : List SpecResource
deriving Repr, DecidableEq

/-- Modelled from the spec: the title filter inside `getMatchingResources`,
which is absent from src/.  Per spec section 4.1 each resource's title is
tested against the regular-expression pattern; the regex engine is external
code, modelled as the abstract predicate `test` (partial-match semantics are
the predicate's concern, e.g. the pattern `^2024` becomes a
starts-with-2024 test).  The traversal keeps each match and preserves the
incoming order. -/
def matchLoop (test : String → Bool) : List SpecResource → List SpecResource
  | [] => []
  | r :: rs =>
      if test r.title then r :: matchLoop test rs else matchLoop test rs

/-- Modelled from the spec: `getMatchingResources`, absent from src/.  It
fetches the dataset metadata (here received as `meta`), filters its resource
list by testing each title against the pattern, and returns the filtered list
in the original order; if `verbose`, it emits a diagnostic listing the ids
and titles of the matches as a side effect only (second component). -/
def getMatchingResources (test : String → Bool) (verbose : Bool)
    (meta : DatasetMetadata) : List SpecResource × List String :=
  let matched := matchLoop test meta.resources
  (matched,
   if verbose then matched.map (fun r => r.id ++ " " ++ r.title) else [])

/-- Modelled from the spec: the sequential deletion loop of
`deleteResourceDatasetPattern`, absent from src/.  Iterates the matched
resources in order; when `confirmDelete` each deletion is performed through
`deleteEnv` and a failure propagates at once, aborting the rest; otherwise no
deletion is issued.  The second component records the resource ids whose
deletion was requested, in order. -/
def deleteLoop (deleteEnv : String → Except JsError String)
    (confirmDelete : Bool) :
    List SpecResource → Except JsError Unit × List String
  | [] => (.ok (), [])
  | r :: rs =>
      if confirmDelete then
        match deleteEnv r.id with
        | .ok _ =>
            let p := deleteLoop deleteEnv confirmDelete rs
            (p.1, r.id :: p.2)
        | .error e => (.error e, [r.id])
      else deleteLoop deleteEnv confirmDelete rs

/-- Modelled from the spec: `deleteResourceDatasetPattern`, absent from src/.
Computes the matching resources exactly as `getMatchingResources`, then runs
the sequential deletion loop, and returns the full matched list regardless of
`confirmDelete` (unless a deletion fails, which propagates).  The second
component records the delete requests issued. -/
def deleteResourceDatasetPattern (test : String → Bool)
    (deleteEnv : String → Except JsError String)
    (confirmDelete verbose : Bool) (meta : DatasetMetadata) :
    Except JsError (List SpecResource) × List String :=
  let matched := (getMatchingResources test verbose meta).1
  let p := deleteLoop deleteEnv confirmDelete matched
  (p.1.map (fun _ => matched), p.2)

/-- A well-formed upload response body: the success flag is true and the
remote service inferred a title of its own from the uploaded file. -/
def demoUploadBody : JsVal :=
  .obj [("success", .bool true), ("id", .str "res-42"),
        ("created_at", .str "2024-01-01"), ("last_modified", .str "2024-01-02"),
        ("title", .str "upload-inferred-title"), ("latest", .str "latest-url"),
        ("url", .str "resource-url"), ("description", .str "a file"),
        ("format", .str "csv")]

/-- A conforming remote service for the rename PUT: it returns the updated
resource, echoing the title requested by the payload (the eight fields of the
exported record shape and nothing else). -/
def demoRenameServer : UpdateRequest → JsVal := fun req =>
  .obj [("id", .str "res-42"), ("created_at", .str "2024-01-01"),
        ("last_modified", .str "2024-01-03"),
        ("title", match req.payload.title with
                  | some t => .str t
                  | none => .str "upload-inferred-title"),
        ("latest", .str "latest-url"), ("url", .str "resource-url"),
        ("description", .str "a file"), ("format", .str "csv")]

/-- The value `demoRenameServer` answers to the rename request of
`createResourceFromFile "foo/bar/report.csv" … demoUploadBody`: an object with
the eight modeled keys only, title renamed, and no `rest` key. -/
def demoRenamedValue : JsVal :=
  .obj [("id", .str "res-42"), ("created_at", .str "2024-01-01"),
        ("last_modified", .str "2024-01-03"), ("title", .str "report.csv"),
        ("latest", .str "latest-url"), ("url", .str "resource-url"),
        ("description", .str "a file"), ("format", .str "csv")]

/-- Dataset metadata holding the three demo resources of the specification's
`getMatchingResources` example, in the remote service's order. -/
def demo2024Meta : DatasetMetadata :=
  ⟨[⟨"a", "2024-01.csv"⟩, ⟨"b", "2023-12.csv"⟩, ⟨"c", "2024-02.csv"⟩]⟩

/-- The partial-match test denoted by the regular expression `^2024`: the
title starts with `2024`. -/
def test2024 (title : String) : Bool :=
  "2024".data.isPrefixOf title.data

/-- A delete environment in which every deletion succeeds with an empty body. -/
def demoDeleteOk : String → Except JsError String := fun _ => .ok ""

theorem matchLoop_eq_filter (test : String → Bool) (rs : List SpecResource) :
    matchLoop test rs = rs.filter (fun r => test r.title) := by
  induction rs with
  | nil => rfl
  | cons r rs ih =>
      by_cases h : test r.title <;>
        simp [matchLoop, List.filter_cons, h, ih]

theorem deleteLoop_not_confirmed (deleteEnv : String → Except JsError String)
    (rs : List SpecResource) :
    deleteLoop deleteEnv false rs = (.ok (), []) := by
  induction rs with
  | nil => rfl
  | cons r rs ih => simpa [deleteLoop] using ih

theorem deleteLoop_all_ok (deleteEnv : String → Except JsError String)
    (hok : ∀ i, ∃ s, deleteEnv i = Except.ok s) (rs : List SpecResource) :
    deleteLoop deleteEnv true rs = (.ok (), rs.map (fun r => r.id)) := by
  induction rs with
  | nil => rfl
  | cons r rs ih =>
      obtain ⟨s, hs⟩ := hok r.id
      simp [deleteLoop, hs, ih]

/-- C1: a DELETE answered with status 204 resolves with the empty result and
an error status such as 404 rejects with the generic Deletion-Failed error,
but a delivered non-error status other than 204 — here 200 — rejects with the
`TypeError` raised inside the catch handler, not with the Deletion-Failed
error, contradicting the claim's "any other status rejects with a
Deletion-Failed error". -/
theorem deleteResource_status200_rejects_with_typeError :
    (deleteResource "res-1" (.response 204 "")).1 = .ok "" ∧
    (deleteResource "res-1" (.response 404 "not found")).1
      = .error (.error "Resource deletion failed") ∧
    (deleteResource "res-1" (.response 200 "")).1 = .error .typeError ∧
    JsError.typeError ≠ JsError.error "Resource deletion failed" :=
  ⟨rfl, rfl, rfl, by decide⟩

/-- C10: whenever the catch handler of `deleteResource` receives an error
value without a `response` field — the plain `Error` thrown by the 204 check
on any delivered 2xx status other than 204, or an axios transport failure
carrying no response — the unguarded `r.response.status` access throws, so
the promise rejects with a `TypeError` instead of the generic Deletion-Failed
error; the handler produces the generic error only when the caught value
carries a response. -/
theorem deleteResource_catch_requires_response :
    (∀ (rid body : String) (s : Nat), 200 ≤ s → s < 300 → s ≠ 204 →
        deleteResource rid (.response s body) = (.error .typeError, [])) ∧
    (∀ rid, deleteResource rid .networkFailure = (.error .typeError, [])) ∧
    (∀ rid msg, deleteCatch rid (.error msg) = (.error .typeError, [])) ∧
    (∀ rid, deleteCatch rid (.axiosError none) = (.error .typeError, [])) ∧
    (∀ rid resp, (deleteCatch rid (.axiosError (some resp))).1
        = .error (.error "Resource deletion failed")) := by
  refine ⟨?_, fun rid => rfl, fun rid msg => rfl, fun rid => rfl,
    fun rid resp => rfl⟩
  intro rid body s h1 h2 h3
  simp [deleteResource, axiosDelete, deleteThen, deleteCatch, h1, h2, h3,
    Bind.bind, Except.bind]

theorem deleteResource_catch_requires_response_witness :
    deleteResource "res-1" (.response 200 "deleted") = (.error .typeError, []) :=
  deleteResource_catch_requires_response.1 "res-1" "deleted" 200
    (by decide) (by decide) (by decide)

/-- C6: when the DELETE request fails at the request level with an upstream
response (a delivered status outside the 2xx range), the upstream status and
message appear only in the logged line; the error raised to the caller is the
fixed generic Deletion-Failed error, carrying neither, so the raised errors
of any two such failures are indistinguishable. -/
theorem deleteResource_failure_detail_only_logged
    (rid body : String) (s : Nat) (h : ¬(200 ≤ s ∧ s < 300)) :
    deleteResource rid (.response s body)
      = (.error (.error "Resource deletion failed"),
         ["Resource deletion failed for " ++ rid ++ " : \x7b\"status\":"
            ++ toString s ++ ",\"message\":\"" ++ body ++ "\"\x7d"]) ∧
    (∀ (s' : Nat) (body' : String), ¬(200 ≤ s' ∧ s' < 300) →
        (deleteResource rid (.response s body)).1
          = (deleteResource rid (.response s' body')).1) := by
  constructor
  · simp [deleteResource, axiosDelete, deleteCatch, h, Bind.bind, Except.bind]
  · intro s' body' h'
    simp [deleteResource, axiosDelete, deleteCatch, h, h', Bind.bind,
      Except.bind]

theorem deleteResource_failure_detail_only_logged_witness :
    deleteResource "res-1" (.response 404 "not found")
      = (.error (.error "Resource deletion failed"),
         ["Resource deletion failed for res-1 : \x7b\"status\":404,\"message\":\"not found\"\x7d"]) ∧
    (deleteResource "res-1" (.response 404 "not found")).1
      = (deleteResource "res-1" (.response 500 "boom")).1 := by
  have h := deleteResource_failure_detail_only_logged "res-1" "not found" 404
    (by decide)
  exact ⟨h.1, h.2 500 "boom" (by decide)⟩

/-- C9: `updateResourceDescription resource baseUrl datasetId description
apiKey` behaves identically to `updateResource resource baseUrl datasetId
apiKey` with the payload holding only the description: the same PUT request is
issued to the remote service and the same result is returned, for every
resource, base URL, dataset id, description and API key (over every remote
service behaviour `env`). -/
theorem updateResourceDescription_eq_updateResource
    (env : UpdateRequest → JsVal) (resource : JsVal)
    (api_base_url dataset_id description datagouv_apiKey : String) :
    updateResourceDescription env resource api_base_url dataset_id description
        datagouv_apiKey
      = updateResource env resource api_base_url dataset_id datagouv_apiKey
          ⟨some description, none, none⟩ ∧
    (updateResourceReq resource api_base_url dataset_id datagouv_apiKey
        ⟨some description, none, none⟩).payload
      = ⟨some description, none, none⟩ :=
  ⟨rfl, rfl⟩

/-- C7: the creation payload of `createResourceRemote` has exactly the seven
fields description, filetype, format, mime, title, type, url — with filetype
"remote", format "csv", mime "text/csv" and type "main" hardcoded (the format
entry is the constant "csv", never derived from the supplied url or title),
and description, title, url taken from the arguments — and the issued POST
request carries the X-API-KEY header. -/
theorem createResourceRemote_payload_fixed_shape
    (env : PostRequest → JsVal)
    (baseUrl datasetId title description url datagouv_apiKey : String) :
    createResourceRemote env baseUrl datasetId title description url
        datagouv_apiKey
      = env (createResourceRemoteReq baseUrl datasetId title description url
          datagouv_apiKey) ∧
    (createResourceRemoteReq baseUrl datasetId title description url
        datagouv_apiKey).payload
      = [("description", description), ("filetype", "remote"),
         ("format", "csv"), ("mime", "text/csv"), ("title", title),
         ("type", "main"), ("url", url)] ∧
    (createResourceRemoteReq baseUrl datasetId title description url
        datagouv_apiKey).payload.lookup "format" = some "csv" ∧
    ("X-API-KEY", datagouv_apiKey)
      ∈ (createResourceRemoteReq baseUrl datasetId title description url
          datagouv_apiKey).headers := by
  refine ⟨rfl, rfl, ?_, ?_⟩
  · simp [createResourceRemoteReq, List.lookup]
  · simp [createResourceRemoteReq]

/-- C2: when the upload response body of `createResourceFromFile` carries a
false success flag, the operation rejects with the Upload-Failed error
(`Error("Resource creation failed")`) and issues no rename (`updateResource`)
request: step 2 is never reached. -/
theorem createResourceFromFile_upload_failure_no_rename
    (filePath base ds key : String) (uploadData : JsVal)
    (env : UpdateRequest → JsVal)
    (h : uploadData.get "success" = JsVal.bool false) :
    createResourceFromFile filePath base ds key uploadData env
      = (.error (.error "Resource creation failed"), []) := by
  simp [createResourceFromFile, h, JsVal.truthy]

theorem createResourceFromFile_upload_failure_no_rename_witness :
    createResourceFromFile "foo/bar/report.csv" "B" "D" "K"
        (JsVal.obj [("success", JsVal.bool false)]) (fun _ => JsVal.undefined)
      = (.error (.error "Resource creation failed"), []) :=
  createResourceFromFile_upload_failure_no_rename "foo/bar/report.csv" "B" "D"
    "K" (JsVal.obj [("success", JsVal.bool false)]) (fun _ => JsVal.undefined) rfl

/-- C3: on a successful upload, `createResourceFromFile` issues exactly one
rename request, a partial update whose payload sets only the title, to the
file path's base name (`filePath.split("/").pop()`); the caller receives the
rename call's response — the post-rename state — so whenever the remote
service answers the rename with a resource carrying the requested title, the
returned resource's title equals the base name, regardless of the title the
upload step produced. -/
theorem createResourceFromFile_renames_to_basename
    (filePath base ds key : String) (uploadData : JsVal)
    (env : UpdateRequest → JsVal)
    (hsucc : (uploadData.get "success").truthy = true)
    (hconform : ∀ req : UpdateRequest,
        req.payload.title = some (jsBasename filePath) →
        (env req).get "title" = JsVal.str (jsBasename filePath)) :
    (createResourceFromFile filePath base ds key uploadData env).2
      = [updateResourceReq (reshapeUpload uploadData) base ds key
           ⟨none, some (jsBasename filePath), none⟩] ∧
    (updateResourceReq (reshapeUpload uploadData) base ds key
        ⟨none, some (jsBasename filePath), none⟩).payload
      = ⟨none, some (jsBasename filePath), none⟩ ∧
    (createResourceFromFile filePath base ds key uploadData env).1
      = .ok (env (updateResourceReq (reshapeUpload uploadData) base ds key
          ⟨none, some (jsBasename filePath), none⟩)) ∧
    (env (updateResourceReq (reshapeUpload uploadData) base ds key
        ⟨none, some (jsBasename filePath), none⟩)).get "title"
      = JsVal.str (jsBasename filePath) := by
  refine ⟨?_, rfl, ?_, hconform _ rfl⟩ <;>
    simp [createResourceFromFile, hsucc, updateResource]

theorem createResourceFromFile_renames_to_basename_witness :
    (createResourceFromFile "foo/bar/report.csv" "B" "D" "K" demoUploadBody
        demoRenameServer).1
      = .ok (demoRenameServer (updateResourceReq (reshapeUpload demoUploadBody)
          "B" "D" "K" ⟨none, some (jsBasename "foo/bar/report.csv"), none⟩)) ∧
    (demoRenameServer (updateResourceReq (reshapeUpload demoUploadBody)
        "B" "D" "K" ⟨none, some (jsBasename "foo/bar/report.csv"), none⟩)).get
        "title"
      = JsVal.str (jsBasename "foo/bar/report.csv") := by
  have h := createResourceFromFile_renames_to_basename "foo/bar/report.csv"
    "B" "D" "K" demoUploadBody demoRenameServer (by decide)
    (by
      intro req hreq
      simp [demoRenameServer, JsVal.get, lookupField, hreq])
  exact ⟨h.2.2.1, h.2.2.2⟩

/-- C8 counterexample: with a successful upload and a conforming remote
service that answers the rename with the eight-field resource record,
`createResourceFromFile` resolves with that response verbatim — an object
whose keys are exactly the eight fields of `DatagouvResourceCustom`, with no
auxiliary passthrough field (`rest` is absent), refuting the claim that the
value the operation resolves with carries the raw upload body under an
auxiliary field. -/
theorem createResourceFromFile_resolves_without_rest :
    (createResourceFromFile "foo/bar/report.csv" "B" "D" "K" demoUploadBody
        demoRenameServer).1 = .ok demoRenamedValue ∧
    demoRenamedValue.hasKey "rest" = false ∧
    demoRenamedValue.keys
      = ["id", "created_at", "last_modified", "title", "latest", "url",
         "description", "format"] :=
  ⟨rfl, rfl, rfl⟩

/-- C8 amended: the record with the eight modeled fields plus the auxiliary
`rest` field carrying the full raw upload body is only the intermediate value
built inside `createResourceFromFile` after a successful upload; that
intermediate is consumed by the rename call, and the value the operation
resolves with is the rename call's response body verbatim, unreshaped (its
declared type, `DatagouvResourceCustom`, has exactly the eight fields of
`resourceFieldNames` and no auxiliary field). -/
theorem createResourceFromFile_rest_only_intermediate
    (filePath base ds key : String) (uploadData : JsVal)
    (env : UpdateRequest → JsVal)
    (hsucc : (uploadData.get "success").truthy = true) :
    (reshapeUpload uploadData).get "rest" = uploadData ∧
    (reshapeUpload uploadData).keys
      = ["created_at", "description", "format", "id", "last_modified",
         "latest", "title", "url", "rest"] ∧
    (createResourceFromFile filePath base ds key uploadData env).1
      = .ok (env (updateResourceReq (reshapeUpload uploadData) base ds key
          ⟨none, some (jsBasename filePath), none⟩)) ∧
    resourceFieldNames
      = ["id", "created_at", "last_modified", "title", "latest", "url",
         "description", "format"] := by
  refine ⟨rfl, rfl, ?_, rfl⟩
  simp [createResourceFromFile, hsucc, updateResource]

theorem createResourceFromFile_rest_only_intermediate_witness :
    (reshapeUpload demoUploadBody).get "rest" = demoUploadBody ∧
    (createResourceFromFile "foo/bar/report.csv" "B" "D" "K" demoUploadBody
        demoRenameServer).1
      = .ok (demoRenameServer (updateResourceReq (reshapeUpload demoUploadBody)
          "B" "D" "K" ⟨none, some (jsBasename "foo/bar/report.csv"), none⟩)) := by
  have h := createResourceFromFile_rest_only_intermediate "foo/bar/report.csv"
    "B" "D" "K" demoUploadBody demoRenameServer (by decide)
  exact ⟨h.1, h.2.2.1⟩

/-- C5: `getMatchingResources` returns exactly the resources whose title the
pattern's partial-match test accepts, as a stable filter of the remote
service's resource list (a sublist, so the original order is preserved); in
particular, the test denoted by the pattern `^2024` against the titles
2024-01.csv, 2023-12.csv, 2024-02.csv yields exactly the first and the third
resource, in that order. -/
theorem getMatchingResources_stable_filter :
    (∀ (test : String → Bool) (verbose : Bool) (meta : DatasetMetadata),
        (getMatchingResources test verbose meta).1
          = meta.resources.filter (fun r => test r.title) ∧
        ((getMatchingResources test verbose meta).1).Sublist meta.resources) ∧
    (getMatchingResources test2024 true demo2024Meta).1
      = [⟨"a", "2024-01.csv"⟩, ⟨"c", "2024-02.csv"⟩] := by
  refine ⟨fun test verbose meta => ⟨matchLoop_eq_filter test meta.resources, ?_⟩,
    by decide⟩
  rw [show (getMatchingResources test verbose meta).1
        = matchLoop test meta.resources from rfl,
      matchLoop_eq_filter]
  exact List.filter_sublist meta.resources

/-- C4: for every pattern test, verbosity and dataset metadata,
`deleteResourceDatasetPattern` with confirmDelete false issues no delete
request and returns the full matched list, and with confirmDelete true it
issues one delete per matched resource, in order, and returns exactly the
same matched list whenever each deletion succeeds. -/
theorem deleteResourceDatasetPattern_dry_run_same_list
    (test : String → Bool) (verbose : Bool) (meta : DatasetMetadata)
    (envA envB : String → Except JsError String)
    (hok : ∀ i, ∃ s, envB i = Except.ok s) :
    deleteResourceDatasetPattern test envA false verbose meta
      = (.ok (getMatchingResources test verbose meta).1, []) ∧
    deleteResourceDatasetPattern test envB true verbose meta
      = (.ok (getMatchingResources test verbose meta).1,
         ((getMatchingResources test verbose meta).1).map (fun r => r.id)) := by
  constructor
  · simp [deleteResourceDatasetPattern, deleteLoop_not_confirmed,
      Except.map]
  · simp [deleteResourceDatasetPattern, deleteLoop_all_ok envB hok,
      Except.map]

theorem deleteResourceDatasetPattern_dry_run_same_list_witness :
    deleteResourceDatasetPattern test2024 (fun _ => .error .typeError) false
        true demo2024Meta
      = (.ok (getMatchingResources test2024 true demo2024Meta).1, []) ∧
    deleteResourceDatasetPattern test2024 demoDeleteOk true true demo2024Meta
      = (.ok (getMatchingResources test2024 true demo2024Meta).1,
         ((getMatchingResources test2024 true demo2024Meta).1).map
           (fun r => r.id)) :=
  deleteResourceDatasetPattern_dry_run_same_list test2024 true demo2024Meta
    (fun _ => .error .typeError) demoDeleteOk (fun _ => ⟨"", rfl⟩)
